import Mathlib

/-!
Verification of the `webrtc-audio-processing-sys` C++ wrapper
(`src/wrapper.cpp`, `src/wrapper.hpp`).

The wrapper is a thin façade over the webrtc `AudioProcessing` engine.  The
engine itself is an external collaborator: its behaviour enters the model only
through explicit parameters (`engine_init`, `engine_process`, `validate`,
default-constructed configuration values), never through assumptions.  All
wrapper-owned logic — configuration merging, factory decisions, session state,
statistics translation — is translated directly from the C++ source.

Numeric carriers: C++ `size_t` is modelled as `Nat`, `int`/`int32_t` as `Int`,
`float`/`double` as `Rat`.  The wrapper performs no arithmetic on any `float`
or `double` value (it only copies them), so the carrier choice for those is
immaterial to every statement proved here.
-/

namespace webrtc_audio_processing_wrapper

/-! ## Optional bridge types (wrapper.hpp lines 14-27) -/

/-- Struct `OptionalDouble` of wrapper.hpp: a (has_value, value) pair. -/
structure OptionalDouble where
  has_value : Bool
  value : Rat
  deriving Inhabited, DecidableEq

/-- Struct `OptionalInt` of wrapper.hpp. -/
structure OptionalInt where
  has_value : Bool
  value : Int
  deriving Inhabited, DecidableEq

/-- Struct `OptionalBool` of wrapper.hpp. -/
structure OptionalBool where
  has_value : Bool
  value : Bool
  deriving Inhabited, DecidableEq

/-- Overload `from_absl_optional(const std::optional<double>&)` of wrapper.cpp:
`rv.has_value = optional.has_value(); rv.value = optional.value_or(0.0)`. -/
def from_absl_optional_double (optional : Option Rat) : OptionalDouble :=
  { has_value := optional.isSome, value := optional.getD 0 }

/-- Overload `from_absl_optional(const std::optional<int>&)` of wrapper.cpp. -/
def from_absl_optional_int (optional : Option Int) : OptionalInt :=
  { has_value := optional.isSome, value := optional.getD 0 }

/-- Overload `from_absl_optional(const std::optional<bool>&)` of wrapper.cpp. -/
def from_absl_optional_bool (optional : Option Bool) : OptionalBool :=
  { has_value := optional.isSome, value := optional.getD false }

/-! ## Engine statistics block

`webrtc::AudioProcessingStats` as read by `get_stats` (engine type; each field
is a native optional).  Field order of the engine struct is irrelevant here —
only the wrapper's own declaration and initializer orders matter below. -/

/-- Engine statistics block consumed by `get_stats` (wrapper.cpp lines 379-393). -/
structure AudioProcessingStats where
  output_rms_dbfs : Option Int
  voice_detected : Option Bool
  echo_return_loss : Option Rat
  echo_return_loss_enhancement : Option Rat
  divergent_filter_fraction : Option Rat
  delay_median_ms : Option Int
  delay_standard_deviation_ms : Option Int
  residual_echo_likelihood : Option Rat
  residual_echo_likelihood_recent_max : Option Rat
  delay_ms : Option Int
  deriving Inhabited, DecidableEq

/-- Kind tag of the three Optional bridge structs. -/
inductive OptKind where
  | int
  | bool
  | double
  deriving DecidableEq

/-- A translated optional value, tagged with its bridge type. -/
inductive OptValue where
  | int (v : OptionalInt)
  | bool (v : OptionalBool)
  | double (v : OptionalDouble)
  deriving DecidableEq

/-- Bridge type of a translated value. -/
def OptValue.kind : OptValue → OptKind
  | OptValue.int _ => OptKind.int
  | OptValue.bool _ => OptKind.bool
  | OptValue.double _ => OptKind.double

/-- Field list of `struct Stats` in wrapper.hpp (lines 31-42), in declaration
order, each with the kind of its Optional bridge type. -/
def stats_field_decls : List (String × OptKind) :=
  [("output_rms_dbfs", OptKind.int),
   ("voice_detected", OptKind.bool),
   ("echo_return_loss", OptKind.double),
   ("echo_return_loss_enhancement", OptKind.double),
   ("divergent_filter_fraction", OptKind.double),
   ("delay_median_ms", OptKind.int),
   ("delay_standard_deviation_ms", OptKind.int),
   ("residual_echo_likelihood", OptKind.double),
   ("residual_echo_likelihood_recent_max", OptKind.double),
   ("delay_ms", OptKind.int)]

/-- Aggregate-initializer list of `get_stats` in wrapper.cpp (lines 382-392):
in textual order, the engine statistic each initializer reads and its
translated value.  C++ aggregate initialization assigns these entries to the
fields of `Stats` positionally, in declaration order. -/
def get_stats_args (stats : AudioProcessingStats) : List (String × OptValue) :=
  [("voice_detected", OptValue.bool (from_absl_optional_bool stats.voice_detected)),
   ("echo_return_loss", OptValue.double (from_absl_optional_double stats.echo_return_loss)),
   ("echo_return_loss_enhancement",
      OptValue.double (from_absl_optional_double stats.echo_return_loss_enhancement)),
   ("divergent_filter_fraction",
      OptValue.double (from_absl_optional_double stats.divergent_filter_fraction)),
   ("delay_median_ms", OptValue.int (from_absl_optional_int stats.delay_median_ms)),
   ("delay_standard_deviation_ms",
      OptValue.int (from_absl_optional_int stats.delay_standard_deviation_ms)),
   ("residual_echo_likelihood",
      OptValue.double (from_absl_optional_double stats.residual_echo_likelihood)),
   ("residual_echo_likelihood_recent_max",
      OptValue.double (from_absl_optional_double stats.residual_echo_likelihood_recent_max)),
   ("delay_ms", OptValue.int (from_absl_optional_int stats.delay_ms))]

/-- Engine statistics block with every statistic absent (cold start, before the
first processed frame). -/
def cold_start_stats : AudioProcessingStats :=
  { output_rms_dbfs := none
  , voice_detected := none
  , echo_return_loss := none
  , echo_return_loss_enhancement := none
  , divergent_filter_fraction := none
  , delay_median_ms := none
  , delay_standard_deviation_ms := none
  , residual_echo_likelihood := none
  , residual_echo_likelihood_recent_max := none
  , delay_ms := none }

/-! ## Echo-canceller configuration

`webrtc::EchoCanceller3Config`, modelled with exactly the fields that
`build_aec3_config` (wrapper.cpp lines 40-285) assigns, grouped into the same
nested sections the C++ paths use.  The single extra field `engine_rest`
stands for any engine-side fields the wrapper never assigns; they retain
whatever the default-constructed engine configuration holds. -/

/-- Section `config.buffering`. -/
structure Buffering where
  excess_render_detection_interval_blocks : Nat
  max_allowed_excess_render_blocks : Nat
  deriving Inhabited, DecidableEq

/-- Section `config.delay.delay_selection_thresholds`. -/
structure DelaySelectionThresholds where
  initial : Int
  converged : Int
  deriving Inhabited, DecidableEq

/-- Sections `config.delay.render_alignment_mixing` and
`config.delay.capture_alignment_mixing`. -/
structure AlignmentMixing where
  downmix : Bool
  adaptive_selection : Bool
  activity_power_threshold : Rat
  prefer_first_two_channels : Bool
  deriving Inhabited, DecidableEq

/-- Section `config.delay`. -/
structure DelaySection where
  default_delay : Nat
  down_sampling_factor : Nat
  num_filters : Nat
  delay_headroom_samples : Nat
  hysteresis_limit_blocks : Nat
  fixed_capture_delay_samples : Nat
  delay_estimate_smoothing : Rat
  delay_estimate_smoothing_delay_found : Rat
  delay_candidate_detection_threshold : Rat
  delay_selection_thresholds : DelaySelectionThresholds
  use_external_delay_estimator : Bool
  log_warning_on_delay_changes : Bool
  detect_pre_echo : Bool
  render_alignment_mixing : AlignmentMixing
  capture_alignment_mixing : AlignmentMixing
  deriving Inhabited, DecidableEq

/-- Sections `config.filter.refined` and `config.filter.refined_initial`. -/
structure RefinedConfiguration where
  length_blocks : Nat
  leakage_converged : Rat
  leakage_diverged : Rat
  error_floor : Rat
  error_ceil : Rat
  noise_gate : Rat
  deriving Inhabited, DecidableEq

/-- Sections `config.filter.coarse` and `config.filter.coarse_initial`. -/
structure CoarseConfiguration where
  length_blocks : Nat
  rate : Rat
  noise_gate : Rat
  deriving Inhabited, DecidableEq

/-- Section `config.filter`. -/
structure FilterSection where
  refined : RefinedConfiguration
  coarse : CoarseConfiguration
  refined_initial : RefinedConfiguration
  coarse_initial : CoarseConfiguration
  config_change_duration_blocks : Nat
  initial_state_seconds : Rat
  coarse_reset_hangover_blocks : Nat
  conservative_initial_phase : Bool
  enable_coarse_filter_output_usage : Bool
  use_linear_filter : Bool
  high_pass_filter_echo_reference : Bool
  export_linear_aec_output : Bool
  deriving Inhabited, DecidableEq

/-- Section `config.erle`. -/
structure ErleSection where
  min : Rat
  max_l : Rat
  max_h : Rat
  onset_detection : Bool
  num_sections : Nat
  clamp_quality_estimate_to_zero : Bool
  clamp_quality_estimate_to_one : Bool
  deriving Inhabited, DecidableEq

/-- Section `config.ep_strength`. -/
structure EpStrength where
  default_gain : Rat
  default_len : Rat
  nearend_len : Rat
  echo_can_saturate : Bool
  bounded_erl : Bool
  erle_onset_compensation_in_dominant_nearend : Bool
  use_conservative_tail_frequency_response : Bool
  deriving Inhabited, DecidableEq

/-- Section `config.echo_audibility`. -/
structure EchoAudibility where
  low_render_limit : Rat
  normal_render_limit : Rat
  floor_power : Rat
  audibility_threshold_lf : Rat
  audibility_threshold_mf : Rat
  audibility_threshold_hf : Rat
  use_stationarity_properties : Bool
  use_stationarity_properties_at_init : Bool
  deriving Inhabited, DecidableEq

/-- Section `config.render_levels`. -/
structure RenderLevels where
  active_render_limit : Rat
  poor_excitation_render_limit : Rat
  poor_excitation_render_limit_ds8 : Rat
  render_power_gain_db : Rat
  deriving Inhabited, DecidableEq

/-- Section `config.echo_removal_control`. -/
structure EchoRemovalControl where
  has_clock_drift : Bool
  linear_and_stable_echo_path : Bool
  deriving Inhabited, DecidableEq

/-- Section `config.echo_model`. -/
structure EchoModel where
  noise_floor_hold : Nat
  min_noise_floor_power : Rat
  stationary_gate_slope : Rat
  noise_gate_power : Rat
  noise_gate_slope : Rat
  render_pre_window_size : Nat
  render_post_window_size : Nat
  model_reverb_in_nonlinear_mode : Bool
  deriving Inhabited, DecidableEq

/-- Section `config.comfort_noise`. -/
structure ComfortNoise where
  noise_floor_dbfs : Rat
  deriving Inhabited, DecidableEq

/-- Masks `mask_lf` and `mask_hf` of the suppressor tunings. -/
structure MaskingThresholds where
  enr_transparent : Rat
  enr_suppress : Rat
  emr_transparent : Rat
  deriving Inhabited, DecidableEq

/-- Sections `config.suppressor.normal_tuning` and
`config.suppressor.nearend_tuning`. -/
structure SuppressorTuning where
  mask_lf : MaskingThresholds
  mask_hf : MaskingThresholds
  max_inc_factor : Rat
  max_dec_factor_lf : Rat
  deriving Inhabited, DecidableEq

/-- Section `config.suppressor.dominant_nearend_detection`. -/
structure DominantNearendDetection where
  enr_threshold : Rat
  enr_exit_threshold : Rat
  snr_threshold : Rat
  hold_duration : Int
  trigger_threshold : Int
  use_during_initial_phase : Bool
  use_unbounded_echo_spectrum : Bool
  deriving Inhabited, DecidableEq

/-- Subband bounds of the subband nearend detector. -/
structure SubbandRegion where
  low : Nat
  high : Nat
  deriving Inhabited, DecidableEq

/-- Section `config.suppressor.subband_nearend_detection`. -/
structure SubbandNearendDetection where
  nearend_average_blocks : Nat
  subband1 : SubbandRegion
  subband2 : SubbandRegion
  nearend_threshold : Rat
  snr_threshold : Rat
  deriving Inhabited, DecidableEq

/-- Section `config.suppressor.high_bands_suppression`. -/
structure HighBandsSuppression where
  enr_threshold : Rat
  max_gain_during_echo : Rat
  anti_howling_activation_threshold : Rat
  anti_howling_gain : Rat
  deriving Inhabited, DecidableEq

/-- Section `config.suppressor`. -/
structure SuppressorSection where
  nearend_average_blocks : Nat
  normal_tuning : SuppressorTuning
  nearend_tuning : SuppressorTuning
  floor_first_increase : Rat
  lf_smoothing_during_initial_phase : Bool
  last_permanent_lf_smoothing_band : Nat
  last_lf_smoothing_band : Nat
  last_lf_band : Nat
  first_hf_band : Nat
  dominant_nearend_detection : DominantNearendDetection
  subband_nearend_detection : SubbandNearendDetection
  use_subband_nearend_detection : Bool
  high_bands_suppression : HighBandsSuppression
  conservative_hf_suppression : Bool
  deriving Inhabited, DecidableEq

/-- Section `config.multi_channel`. -/
structure MultiChannelSection where
  detect_stereo_content : Bool
  stereo_detection_threshold : Rat
  stereo_detection_timeout_threshold_seconds : Int
  stereo_detection_hysteresis_seconds : Rat
  deriving Inhabited, DecidableEq

/-- The full `webrtc::EchoCanceller3Config`, restricted to the fields the
wrapper assigns plus `engine_rest` for all the fields it does not touch. -/
structure EchoCanceller3Config where
  buffering : Buffering
  delay : DelaySection
  filter : FilterSection
  erle : ErleSection
  ep_strength : EpStrength
  echo_audibility : EchoAudibility
  render_levels : RenderLevels
  echo_removal_control : EchoRemovalControl
  echo_model : EchoModel
  comfort_noise : ComfortNoise
  suppressor : SuppressorSection
  multi_channel : MultiChannelSection
  engine_rest : Nat
  deriving Inhabited, DecidableEq

/-- Struct `EchoCanceller3ConfigOverride`: the flat, sparse override the caller
supplies.  Field set and order follow the reads performed by
`build_aec3_config` in wrapper.cpp (the wrapper.hpp declaration of the struct
lags behind the cpp and omits some of these fields; the cpp is the behaviour
being modelled). -/
structure EchoCanceller3ConfigOverride where
  buffering_excess_render_detection_interval_blocks : Nat
  buffering_max_allowed_excess_render_blocks : Nat
  delay_default_delay : Nat
  delay_down_sampling_factor : Nat
  delay_num_filters : Nat
  delay_delay_headroom_samples : Nat
  delay_hysteresis_limit_blocks : Nat
  delay_fixed_capture_delay_samples : Nat
  delay_estimate_smoothing : Rat
  delay_estimate_smoothing_delay_found : Rat
  delay_candidate_detection_threshold : Rat
  delay_selection_thresholds_initial : Int
  delay_selection_thresholds_converged : Int
  delay_use_external_delay_estimator : Bool
  delay_log_warning_on_delay_changes : Bool
  delay_detect_pre_echo : Bool
  delay_render_alignment_mixing_downmix : Bool
  delay_render_alignment_mixing_adaptive_selection : Bool
  delay_render_alignment_mixing_activity_power_threshold : Rat
  delay_render_alignment_mixing_prefer_first_two_channels : Bool
  delay_capture_alignment_mixing_downmix : Bool
  delay_capture_alignment_mixing_adaptive_selection : Bool
  delay_capture_alignment_mixing_activity_power_threshold : Rat
  delay_capture_alignment_mixing_prefer_first_two_channels : Bool
  filter_refined_length_blocks : Nat
  filter_refined_leakage_converged : Rat
  filter_refined_leakage_diverged : Rat
  filter_refined_error_floor : Rat
  filter_refined_error_ceil : Rat
  filter_refined_noise_gate : Rat
  filter_coarse_length_blocks : Nat
  filter_coarse_rate : Rat
  filter_coarse_noise_gate : Rat
  filter_refined_initial_length_blocks : Nat
  filter_refined_initial_leakage_converged : Rat
  filter_refined_initial_leakage_diverged : Rat
  filter_refined_initial_error_floor : Rat
  filter_refined_initial_error_ceil : Rat
  filter_refined_initial_noise_gate : Rat
  filter_coarse_initial_length_blocks : Nat
  filter_coarse_initial_rate : Rat
  filter_coarse_initial_noise_gate : Rat
  filter_config_change_duration_blocks : Nat
  filter_initial_state_seconds : Rat
  filter_coarse_reset_hangover_blocks : Nat
  filter_conservative_initial_phase : Bool
  filter_enable_coarse_filter_output_usage : Bool
  filter_use_linear_filter : Bool
  filter_high_pass_filter_echo_reference : Bool
  filter_export_linear_aec_output : Bool
  erle_min : Rat
  erle_max_l : Rat
  erle_max_h : Rat
  erle_onset_detection : Bool
  erle_num_sections : Nat
  erle_clamp_quality_estimate_to_zero : Bool
  erle_clamp_quality_estimate_to_one : Bool
  ep_strength_default_gain : Rat
  ep_strength_default_len : Rat
  ep_strength_nearend_len : Rat
  ep_strength_echo_can_saturate : Bool
  ep_strength_bounded_erl : Bool
  ep_strength_erle_onset_compensation_in_dominant_nearend : Bool
  ep_strength_use_conservative_tail_frequency_response : Bool
  echo_audibility_low_render_limit : Rat
  echo_audibility_normal_render_limit : Rat
  echo_audibility_floor_power : Rat
  echo_audibility_audibility_threshold_lf : Rat
  echo_audibility_audibility_threshold_mf : Rat
  echo_audibility_audibility_threshold_hf : Rat
  echo_audibility_use_stationarity_properties : Bool
  echo_audibility_use_stationarity_properties_at_init : Bool
  render_levels_active_render_limit : Rat
  render_levels_poor_excitation_render_limit : Rat
  render_levels_poor_excitation_render_limit_ds8 : Rat
  render_levels_render_power_gain_db : Rat
  echo_removal_control_has_clock_drift : Bool
  echo_removal_control_linear_and_stable_echo_path : Bool
  echo_model_noise_floor_hold : Nat
  echo_model_min_noise_floor_power : Rat
  echo_model_stationary_gate_slope : Rat
  echo_model_noise_gate_power : Rat
  echo_model_noise_gate_slope : Rat
  echo_model_render_pre_window_size : Nat
  echo_model_render_post_window_size : Nat
  echo_model_model_reverb_in_nonlinear_mode : Bool
  comfort_noise_noise_floor_dbfs : Rat
  suppressor_nearend_average_blocks : Nat
  suppressor_normal_tuning_mask_lf_enr_transparent : Rat
  suppressor_normal_tuning_mask_lf_enr_suppress : Rat
  suppressor_normal_tuning_mask_lf_emr_transparent : Rat
  suppressor_normal_tuning_mask_hf_enr_transparent : Rat
  suppressor_normal_tuning_mask_hf_enr_suppress : Rat
  suppressor_normal_tuning_mask_hf_emr_transparent : Rat
  suppressor_normal_tuning_max_inc_factor : Rat
  suppressor_normal_tuning_max_dec_factor_lf : Rat
  suppressor_nearend_tuning_mask_lf_enr_transparent : Rat
  suppressor_nearend_tuning_mask_lf_enr_suppress : Rat
  suppressor_nearend_tuning_mask_lf_emr_transparent : Rat
  suppressor_nearend_tuning_mask_hf_enr_transparent : Rat
  suppressor_nearend_tuning_mask_hf_enr_suppress : Rat
  suppressor_nearend_tuning_mask_hf_emr_transparent : Rat
  suppressor_nearend_tuning_max_inc_factor : Rat
  suppressor_nearend_tuning_max_dec_factor_lf : Rat
  suppressor_floor_first_increase : Rat
  suppressor_lf_smoothing_during_initial_phase : Bool
  suppressor_last_permanent_lf_smoothing_band : Nat
  suppressor_last_lf_smoothing_band : Nat
  suppressor_last_lf_band : Nat
  suppressor_first_hf_band : Nat
  suppressor_dominant_nearend_detection_enr_threshold : Rat
  suppressor_dominant_nearend_detection_enr_exit_threshold : Rat
  suppressor_dominant_nearend_detection_snr_threshold : Rat
  suppressor_dominant_nearend_detection_hold_duration : Int
  suppressor_dominant_nearend_detection_trigger_threshold : Int
  suppressor_dominant_nearend_detection_use_during_initial_phase : Bool
  suppressor_dominant_nearend_detection_use_unbounded_echo_spectrum : Bool
  suppressor_subband_nearend_detection_nearend_average_blocks : Nat
  suppressor_subband_nearend_detection_subband1_low : Nat
  suppressor_subband_nearend_detection_subband1_high : Nat
  suppressor_subband_nearend_detection_subband2_low : Nat
  suppressor_subband_nearend_detection_subband2_high : Nat
  suppressor_subband_nearend_detection_nearend_threshold : Rat
  suppressor_subband_nearend_detection_snr_threshold : Rat
  suppressor_use_subband_nearend_detection : Bool
  suppressor_high_bands_suppression_enr_threshold : Rat
  suppressor_high_bands_suppression_max_gain_during_echo : Rat
  suppressor_high_bands_suppression_anti_howling_activation_threshold : Rat
  suppressor_high_bands_suppression_anti_howling_gain : Rat
  suppressor_conservative_hf_suppression : Bool
  multi_channel_detect_stereo_content : Bool
  multi_channel_stereo_detection_threshold : Rat
  multi_channel_stereo_detection_timeout_threshold_seconds : Int
  multi_channel_stereo_detection_hysteresis_seconds : Rat
  deriving Inhabited

/-- Body of the `try` block of `build_aec3_config` (wrapper.cpp lines 42-275)
up to the validation call: starting from a default-constructed engine
configuration `config0` (`webrtc::EchoCanceller3Config config;`), overwrite
every field the wrapper copies from the override.  Fields the wrapper does not
assign (`engine_rest`) keep their default-constructed value. -/
def aec3_config_from_override (config0 : EchoCanceller3Config)
    (override : EchoCanceller3ConfigOverride) : EchoCanceller3Config :=
  { buffering :=
      { excess_render_detection_interval_blocks :=
          override.buffering_excess_render_detection_interval_blocks
      , max_allowed_excess_render_blocks :=
          override.buffering_max_allowed_excess_render_blocks }
  , delay :=
      { default_delay := override.delay_default_delay
      , down_sampling_factor := override.delay_down_sampling_factor
      , num_filters := override.delay_num_filters
      , delay_headroom_samples := override.delay_delay_headroom_samples
      , hysteresis_limit_blocks := override.delay_hysteresis_limit_blocks
      , fixed_capture_delay_samples := override.delay_fixed_capture_delay_samples
      , delay_estimate_smoothing := override.delay_estimate_smoothing
      , delay_estimate_smoothing_delay_found :=
          override.delay_estimate_smoothing_delay_found
      , delay_candidate_detection_threshold :=
          override.delay_candidate_detection_threshold
      , delay_selection_thresholds :=
          { initial := override.delay_selection_thresholds_initial
          , converged := override.delay_selection_thresholds_converged }
      , use_external_delay_estimator := override.delay_use_external_delay_estimator
      , log_warning_on_delay_changes := override.delay_log_warning_on_delay_changes
      , detect_pre_echo := override.delay_detect_pre_echo
      , render_alignment_mixing :=
          { downmix := override.delay_render_alignment_mixing_downmix
          , adaptive_selection :=
              override.delay_render_alignment_mixing_adaptive_selection
          , activity_power_threshold :=
              override.delay_render_alignment_mixing_activity_power_threshold
          , prefer_first_two_channels :=
              override.delay_render_alignment_mixing_prefer_first_two_channels }
      , capture_alignment_mixing :=
          { downmix := override.delay_capture_alignment_mixing_downmix
          , adaptive_selection :=
              override.delay_capture_alignment_mixing_adaptive_selection
          , activity_power_threshold :=
              override.delay_capture_alignment_mixing_activity_power_threshold
          , prefer_first_two_channels :=
              override.delay_capture_alignment_mixing_prefer_first_two_channels } }
  , filter :=
      { refined :=
          { length_blocks := override.filter_refined_length_blocks
          , leakage_converged := override.filter_refined_leakage_converged
          , leakage_diverged := override.filter_refined_leakage_diverged
          , error_floor := override.filter_refined_error_floor
          , error_ceil := override.filter_refined_error_ceil
          , noise_gate := override.filter_refined_noise_gate }
      , coarse :=
          { length_blocks := override.filter_coarse_length_blocks
          , rate := override.filter_coarse_rate
          , noise_gate := override.filter_coarse_noise_gate }
      , refined_initial :=
          { length_blocks := override.filter_refined_initial_length_blocks
          , leakage_converged := override.filter_refined_initial_leakage_converged
          , leakage_diverged := override.filter_refined_initial_leakage_diverged
          , error_floor := override.filter_refined_initial_error_floor
          , error_ceil := override.filter_refined_initial_error_ceil
          , noise_gate := override.filter_refined_initial_noise_gate }
      , coarse_initial :=
          { length_blocks := override.filter_coarse_initial_length_blocks
          , rate := override.filter_coarse_initial_rate
          , noise_gate := override.filter_coarse_initial_noise_gate }
      , config_change_duration_blocks :=
          override.filter_config_change_duration_blocks
      , initial_state_seconds := override.filter_initial_state_seconds
      , coarse_reset_hangover_blocks := override.filter_coarse_reset_hangover_blocks
      , conservative_initial_phase := override.filter_conservative_initial_phase
      , enable_coarse_filter_output_usage :=
          override.filter_enable_coarse_filter_output_usage
      , use_linear_filter := override.filter_use_linear_filter
      , high_pass_filter_echo_reference :=
          override.filter_high_pass_filter_echo_reference
      , export_linear_aec_output := override.filter_export_linear_aec_output }
  , erle :=
      { min := override.erle_min
      , max_l := override.erle_max_l
      , max_h := override.erle_max_h
      , onset_detection := override.erle_onset_detection
      , num_sections := override.erle_num_sections
      , clamp_quality_estimate_to_zero := override.erle_clamp_quality_estimate_to_zero
      , clamp_quality_estimate_to_one := override.erle_clamp_quality_estimate_to_one }
  , ep_strength :=
      { default_gain := override.ep_strength_default_gain
      , default_len := override.ep_strength_default_len
      , nearend_len := override.ep_strength_nearend_len
      , echo_can_saturate := override.ep_strength_echo_can_saturate
      , bounded_erl := override.ep_strength_bounded_erl
      , erle_onset_compensation_in_dominant_nearend :=
          override.ep_strength_erle_onset_compensation_in_dominant_nearend
      , use_conservative_tail_frequency_response :=
          override.ep_strength_use_conservative_tail_frequency_response }
  , echo_audibility :=
      { low_render_limit := override.echo_audibility_low_render_limit
      , normal_render_limit := override.echo_audibility_normal_render_limit
      , floor_power := override.echo_audibility_floor_power
      , audibility_threshold_lf := override.echo_audibility_audibility_threshold_lf
      , audibility_threshold_mf := override.echo_audibility_audibility_threshold_mf
      , audibility_threshold_hf := override.echo_audibility_audibility_threshold_hf
      , use_stationarity_properties :=
          override.echo_audibility_use_stationarity_properties
      , use_stationarity_properties_at_init :=
          override.echo_audibility_use_stationarity_properties_at_init }
  , render_levels :=
      { active_render_limit := override.render_levels_active_render_limit
      , poor_excitation_render_limit :=
          override.render_levels_poor_excitation_render_limit
      , poor_excitation_render_limit_ds8 :=
          override.render_levels_poor_excitation_render_limit_ds8
      , render_power_gain_db := override.render_levels_render_power_gain_db }
  , echo_removal_control :=
      { has_clock_drift := override.echo_removal_control_has_clock_drift
      , linear_and_stable_echo_path :=
          override.echo_removal_control_linear_and_stable_echo_path }
  , echo_model :=
      { noise_floor_hold := override.echo_model_noise_floor_hold
      , min_noise_floor_power := override.echo_model_min_noise_floor_power
      , stationary_gate_slope := override.echo_model_stationary_gate_slope
      , noise_gate_power := override.echo_model_noise_gate_power
      , noise_gate_slope := override.echo_model_noise_gate_slope
      , render_pre_window_size := override.echo_model_render_pre_window_size
      , render_post_window_size := override.echo_model_render_post_window_size
      , model_reverb_in_nonlinear_mode :=
          override.echo_model_model_reverb_in_nonlinear_mode }
  , comfort_noise := { noise_floor_dbfs := override.comfort_noise_noise_floor_dbfs }
  , suppressor :=
      { nearend_average_blocks := override.suppressor_nearend_average_blocks
      , normal_tuning :=
          { mask_lf :=
              { enr_transparent := override.suppressor_normal_tuning_mask_lf_enr_transparent
              , enr_suppress := override.suppressor_normal_tuning_mask_lf_enr_suppress
              , emr_transparent := override.suppressor_normal_tuning_mask_lf_emr_transparent }
          , mask_hf :=
              { enr_transparent := override.suppressor_normal_tuning_mask_hf_enr_transparent
              , enr_suppress := override.suppressor_normal_tuning_mask_hf_enr_suppress
              , emr_transparent := override.suppressor_normal_tuning_mask_hf_emr_transparent }
          , max_inc_factor := override.suppressor_normal_tuning_max_inc_factor
          , max_dec_factor_lf := override.suppressor_normal_tuning_max_dec_factor_lf }
      , nearend_tuning :=
          { mask_lf :=
              { enr_transparent := override.suppressor_nearend_tuning_mask_lf_enr_transparent
              , enr_suppress := override.suppressor_nearend_tuning_mask_lf_enr_suppress
              , emr_transparent := override.suppressor_nearend_tuning_mask_lf_emr_transparent }
          , mask_hf :=
              { enr_transparent := override.suppressor_nearend_tuning_mask_hf_enr_transparent
              , enr_suppress := override.suppressor_nearend_tuning_mask_hf_enr_suppress
              , emr_transparent := override.suppressor_nearend_tuning_mask_hf_emr_transparent }
          , max_inc_factor := override.suppressor_nearend_tuning_max_inc_factor
          , max_dec_factor_lf := override.suppressor_nearend_tuning_max_dec_factor_lf }
      , floor_first_increase := override.suppressor_floor_first_increase
      , lf_smoothing_during_initial_phase :=
          override.suppressor_lf_smoothing_during_initial_phase
      , last_permanent_lf_smoothing_band :=
          override.suppressor_last_permanent_lf_smoothing_band
      , last_lf_smoothing_band := override.suppressor_last_lf_smoothing_band
      , last_lf_band := override.suppressor_last_lf_band
      , first_hf_band := override.suppressor_first_hf_band
      , dominant_nearend_detection :=
          { enr_threshold := override.suppressor_dominant_nearend_detection_enr_threshold
          , enr_exit_threshold :=
              override.suppressor_dominant_nearend_detection_enr_exit_threshold
          , snr_threshold := override.suppressor_dominant_nearend_detection_snr_threshold
          , hold_duration := override.suppressor_dominant_nearend_detection_hold_duration
          , trigger_threshold :=
              override.suppressor_dominant_nearend_detection_trigger_threshold
          , use_during_initial_phase :=
              override.suppressor_dominant_nearend_detection_use_during_initial_phase
          , use_unbounded_echo_spectrum :=
              override.suppressor_dominant_nearend_detection_use_unbounded_echo_spectrum }
      , subband_nearend_detection :=
          { nearend_average_blocks :=
              override.suppressor_subband_nearend_detection_nearend_average_blocks
          , subband1 :=
              { low := override.suppressor_subband_nearend_detection_subband1_low
              , high := override.suppressor_subband_nearend_detection_subband1_high }
          , subband2 :=
              { low := override.suppressor_subband_nearend_detection_subband2_low
              , high := override.suppressor_subband_nearend_detection_subband2_high }
          , nearend_threshold :=
              override.suppressor_subband_nearend_detection_nearend_threshold
          , snr_threshold := override.suppressor_subband_nearend_detection_snr_threshold }
      , use_subband_nearend_detection :=
          override.suppressor_use_subband_nearend_detection
      , high_bands_suppression :=
          { enr_threshold := override.suppressor_high_bands_suppression_enr_threshold
          , max_gain_during_echo :=
              override.suppressor_high_bands_suppression_max_gain_during_echo
          , anti_howling_activation_threshold :=
              override.suppressor_high_bands_suppression_anti_howling_activation_threshold
          , anti_howling_gain :=
              override.suppressor_high_bands_suppression_anti_howling_gain }
      , conservative_hf_suppression := override.suppressor_conservative_hf_suppression }
  , multi_channel :=
      { detect_stereo_content := override.multi_channel_detect_stereo_content
      , stereo_detection_threshold := override.multi_channel_stereo_detection_threshold
      , stereo_detection_timeout_threshold_seconds :=
          override.multi_channel_stereo_detection_timeout_threshold_seconds
      , stereo_detection_hysteresis_seconds :=
          override.multi_channel_stereo_detection_hysteresis_seconds }
  , engine_rest := config0.engine_rest }

/-- Function `build_aec3_config` (wrapper.cpp lines 40-285).  The engine's
default constructor and `EchoCanceller3Config::Validate` are engine code and
enter as parameters (`engine_default`, `validate`).  The C++ `Validate` clamps
out-of-range fields in place and returns whether the configuration was already
valid; since the wrapper keeps the configuration only on a `true` result (in
which case nothing was clamped) and otherwise throws and catches, returning a
fresh default-constructed configuration (equal to `engine_default`), a pure
boolean validator is a faithful model. -/
def build_aec3_config (engine_default : EchoCanceller3Config)
    (validate : EchoCanceller3Config → Bool)
    (override : EchoCanceller3ConfigOverride) : EchoCanceller3Config :=
  let config := aec3_config_from_override engine_default override
  if validate config then config else engine_default

/-! ## Echo-canceller factory (wrapper.cpp lines 287-311) -/

/-- Class `EchoCanceller3Factory`: stores the explicit configuration it was
constructed with (`config_`). -/
structure EchoCanceller3Factory where
  config_ : EchoCanceller3Config

/-- Arguments the factory hands to the `webrtc::EchoCanceller3` constructor in
`EchoCanceller3Factory::Create` (wrapper.cpp lines 301-306), in order. -/
structure EchoCanceller3Construction where
  config : EchoCanceller3Config
  multichannel_config : Option EchoCanceller3Config
  sample_rate_hz : Int
  num_render_channels : Int
  num_capture_channels : Int

/-- Method `EchoCanceller3Factory::Create` (wrapper.cpp lines 292-307).  The
engine's `EchoCanceller3::CreateDefaultMultichannelConfig()` is engine code and
enters as the parameter `engine_multichannel_default`. -/
def EchoCanceller3Factory.Create (self : EchoCanceller3Factory)
    (engine_multichannel_default : EchoCanceller3Config)
    (sample_rate_hz num_render_channels num_capture_channels : Int) :
    EchoCanceller3Construction :=
  let multichannel_config : Option EchoCanceller3Config :=
    if num_render_channels > 1 ∨ num_capture_channels > 1 then
      some engine_multichannel_default
    else
      none
  { config := self.config_
  , multichannel_config := multichannel_config
  , sample_rate_hz := sample_rate_hz
  , num_render_channels := num_render_channels
  , num_capture_channels := num_capture_channels }

/-! ## Session state (wrapper.cpp lines 315-321) -/

/-- The `webrtc::StreamConfig` pair the wrapper constructs per direction
(`StreamConfig(sample_rate_hz, num_channels)`). -/
structure StreamConfig where
  sample_rate_hz : Int
  num_channels : Int
  deriving Inhabited, DecidableEq

/-- Submodule `echo_canceller` of `webrtc::AudioProcessing::Config`, with the
fields the wrapper reads or that the claims inspect.  Engine defaults: all
three flags are false. -/
structure EchoCancellerSetting where
  enabled : Bool
  mobile_mode : Bool
  export_linear_aec_output : Bool
  deriving Inhabited, DecidableEq

/-- The engine's top-level `webrtc::AudioProcessing::Config` as the wrapper
handles it: the wrapper inspects only `echo_canceller.enabled` and otherwise
stores and forwards the value verbatim; all remaining submodule settings are
carried by the opaque payload `other_submodules`, which the wrapper never
reads or alters. -/
structure Config where
  echo_canceller : EchoCancellerSetting
  other_submodules : Nat
  deriving Inhabited, DecidableEq

/-- Default-constructed `webrtc::AudioProcessing::Config`, as member
`AudioProcessing::config` is initialized by `new AudioProcessing` (wrapper.cpp
line 329): every echo-canceller flag defaults to false. -/
def default_config : Config :=
  { echo_canceller := { enabled := false, mobile_mode := false, export_linear_aec_output := false }
  , other_submodules := 0 }

/-- Struct `AudioProcessing` (wrapper.cpp lines 315-321): the session state the
wrapper owns.  The engine handle `processor` is external; engine behaviour
enters each operation as a function parameter. -/
structure AudioProcessing where
  config : Config
  capture_stream_config : StreamConfig
  render_stream_config : StreamConfig
  stream_delay_ms : Option Int
  deriving Inhabited, DecidableEq

/-- The four-descriptor `webrtc::ProcessingConfig` handed to the engine's
`Initialize` (wrapper.cpp lines 344-349). -/
structure ProcessingConfig where
  capture_input : StreamConfig
  capture_output : StreamConfig
  render_input : StreamConfig
  render_output : StreamConfig
  deriving Inhabited, DecidableEq

/-- The `ProcessingConfig` value `audio_processing_create` builds: capture
input and output share the capture descriptor, render input and output share
the render descriptor. -/
def build_processing_config (num_capture_channels num_render_channels sample_rate_hz : Int) :
    ProcessingConfig :=
  let capture_stream_config : StreamConfig :=
    { sample_rate_hz := sample_rate_hz, num_channels := num_capture_channels }
  let render_stream_config : StreamConfig :=
    { sample_rate_hz := sample_rate_hz, num_channels := num_render_channels }
  { capture_input := capture_stream_config
  , capture_output := capture_stream_config
  , render_input := render_stream_config
  , render_output := render_stream_config }

/-- Observable outcome of `audio_processing_create`: the returned session (or
null), the value written through the `error` out-parameter (or none if it was
left untouched), and the echo-control factory registered with the engine
builder (or none when no override was supplied). -/
structure CreateResult where
  session : Option AudioProcessing
  error_out : Option Int
  factory : Option EchoCanceller3Factory

/-- Function `audio_processing_create` (wrapper.cpp lines 323-358).  Engine
behaviour enters as parameters: `engine_init` is the engine's
`Initialize(pconfig)` result, `engine_default` the default-constructed
`EchoCanceller3Config`, `validate` the engine's config validator.  On a
non-zero `Initialize` code the wrapper writes the code through `error`,
deletes the partially built session and returns null; otherwise it returns
the session and leaves `error` untouched. -/
def audio_processing_create
    (engine_init : ProcessingConfig → Int)
    (engine_default : EchoCanceller3Config)
    (validate : EchoCanceller3Config → Bool)
    (num_capture_channels num_render_channels sample_rate_hz : Int)
    (aec3_config_override : Option EchoCanceller3ConfigOverride) : CreateResult :=
  let factory : Option EchoCanceller3Factory :=
    aec3_config_override.map
      (fun override => EchoCanceller3Factory.mk (build_aec3_config engine_default validate override))
  let capture_stream_config : StreamConfig :=
    { sample_rate_hz := sample_rate_hz, num_channels := num_capture_channels }
  let render_stream_config : StreamConfig :=
    { sample_rate_hz := sample_rate_hz, num_channels := num_render_channels }
  let pconfig := build_processing_config num_capture_channels num_render_channels sample_rate_hz
  let code := engine_init pconfig
  if code ≠ 0 then
    { session := none, error_out := some code, factory := factory }
  else
    { session := some
        { config := default_config
        , capture_stream_config := capture_stream_config
        , render_stream_config := render_stream_config
        , stream_delay_ms := none }
    , error_out := none
    , factory := factory }

/-! ## Session operations (wrapper.cpp lines 360-427) -/

/-- Calls the wrapper makes into the engine during an operation. -/
inductive EngineCall where
  | set_stream_delay (delay : Int)
  | process_stream (stream : StreamConfig)
  | apply_config (config : Config)
  deriving DecidableEq

/-- Function `set_stream_delay_ms` (wrapper.cpp lines 408-411): stores the
delay hint in the session.  The source carries the comment
"TODO: Need to mutex lock." — no lock is taken. -/
def set_stream_delay_ms (ap : AudioProcessing) (delay : Int) : AudioProcessing :=
  { ap with stream_delay_ms := some delay }

/-- Function `process_capture_frame` (wrapper.cpp lines 364-372): when the
stored top-level configuration has the echo canceller enabled, pushes the
stored stream-delay hint (0 if never set) into the engine, then delegates the
capture frame to the engine's `ProcessStream`.  Returns the engine calls made,
in order, and the engine's status code (`engine_process` models the engine's
`ProcessStream` result). -/
def process_capture_frame (engine_process : StreamConfig → Int)
    (ap : AudioProcessing) : List EngineCall × Int :=
  let delay_calls : List EngineCall :=
    if ap.config.echo_canceller.enabled then
      [EngineCall.set_stream_delay (ap.stream_delay_ms.getD 0)]
    else
      []
  (delay_calls ++ [EngineCall.process_stream ap.capture_stream_config],
   engine_process ap.capture_stream_config)

/-- Stream-delay values a list of engine calls pushes, in order. -/
def pushed_delays (calls : List EngineCall) : List Int :=
  calls.filterMap
    (fun c =>
      match c with
      | EngineCall.set_stream_delay d => some d
      | _ => none)

/-- Function `set_config` (wrapper.cpp lines 399-402): stores the caller's
configuration in the session (`ap->config = config`) and forwards the same
value to the engine's `ApplyConfig`.  No field is altered. -/
def set_config (ap : AudioProcessing) (config : Config) :
    AudioProcessing × List EngineCall :=
  ({ ap with config := config }, [EngineCall.apply_config config])

/-- Constant `webrtc::AudioProcessing::kChunkSizeMs`: the fixed 10 ms frame
length (wrapper.hpp documents the chunk size as fixed to 10 ms). -/
def kChunkSizeMs : Int := 10

/-- Function `get_num_samples_per_frame` (wrapper.cpp lines 395-397):
`sample_rate_hz() * kChunkSizeMs / 1000` in C++ `int` arithmetic, modelled as
`Int` multiplication and truncating division. -/
def get_num_samples_per_frame (ap : AudioProcessing) : Int :=
  ap.capture_stream_config.sample_rate_hz * kChunkSizeMs / 1000

/-! ## Shared echo-canceller config holder -/

/-- Modelled from the spec: the shared config holder and its `setConfig`
operation (spec section 4.3) are not present in src/ — the wrapper there has
no `setAecConfig` and no holder object.  Per the spec, `setConfig` compares
the candidate (or cleared, `none`) configuration against the currently stored
one using byte-wise structural equality; if different it stores the new value
and returns true, else it returns false and leaves the state untouched.
Byte-wise structural equality on the plain-old-data configuration is modelled
as decidable structural equality.  The result is the new stored state paired
with the `changed` flag. -/
def holder_setConfig (stored candidate : Option EchoCanceller3Config) :
    Option EchoCanceller3Config × Bool :=
  if candidate = stored then (stored, false) else (candidate, true)

/-! ## Source-level action traces for the locking discipline

Each wrapper function that touches session-shared state is rendered as the
ordered list of primitive actions its body performs; lock operations have
their own constructors so that the presence or absence of locking is part of
the translation. -/

/-- Primitive actions on session-shared state. -/
inductive SessionEvent where
  | lock_acquire
  | lock_release
  | read_config
  | write_config
  | read_stream_delay
  | write_stream_delay (delay : Int)
  | engine_call
  deriving DecidableEq

/-- Action trace of `set_stream_delay_ms` (wrapper.cpp lines 408-411): a
single unguarded store of the delay hint; the source itself notes
"TODO: Need to mutex lock." and acquires no lock. -/
def set_stream_delay_ms_trace (delay : Int) : List SessionEvent :=
  [SessionEvent.write_stream_delay delay]

/-- Action trace of `process_capture_frame` (wrapper.cpp lines 364-372): reads
the stored config to test `echo_canceller.enabled`, reads the stream-delay
hint and pushes it to the engine when enabled, then calls the engine's
`ProcessStream`.  No lock is acquired anywhere in the body. -/
def process_capture_frame_trace (ap : AudioProcessing) : List SessionEvent :=
  [SessionEvent.read_config]
    ++ (if ap.config.echo_canceller.enabled then
          [SessionEvent.read_stream_delay, SessionEvent.engine_call]
        else
          [])
    ++ [SessionEvent.engine_call]

/-- Action trace of `set_config` (wrapper.cpp lines 399-402): an unguarded
store of the top-level config followed by the engine's `ApplyConfig`. -/
def set_config_trace : List SessionEvent :=
  [SessionEvent.write_config, SessionEvent.engine_call]

/-- Whether an action touches the session-shared mutable state (the
stream-delay hint or the active top-level config). -/
def shared_state_access : SessionEvent → Bool
  | SessionEvent.read_config => true
  | SessionEvent.write_config => true
  | SessionEvent.read_stream_delay => true
  | SessionEvent.write_stream_delay _ => true
  | _ => false

/-- A trace serializes its shared-state accesses on the session lock when
every such access happens at positive lock depth. -/
def lock_serialized (trace : List SessionEvent) : Bool :=
  (trace.foldl
    (fun st e =>
      match e with
      | SessionEvent.lock_acquire => (st.1 + 1, st.2)
      | SessionEvent.lock_release => (st.1 - 1, st.2)
      | e => (st.1, st.2 && (!shared_state_access e || decide (0 < st.1))))
    ((0 : Int), true)).2

/-! ## Concrete fixtures used by counterexamples and witnesses -/

/-- Default-constructed echo-canceller configuration used as a concrete
engine baseline in closed statements. -/
def ec3_default : EchoCanceller3Config := default

/-- All-fields-default override value. -/
def override_default : EchoCanceller3ConfigOverride := default

/-- A factory holding an explicit configuration. -/
def factory_default : EchoCanceller3Factory := EchoCanceller3Factory.mk ec3_default

/-- Validator that rejects every configuration. -/
def reject_all : EchoCanceller3Config → Bool := fun _ => false

/-- Validator that accepts every configuration. -/
def accept_all : EchoCanceller3Config → Bool := fun _ => true

/-- A freshly created 48 kHz mono session (the value
`audio_processing_create` returns on success with those arguments). -/
def session_48k : AudioProcessing :=
  { config := default_config
  , capture_stream_config := { sample_rate_hz := 48000, num_channels := 1 }
  , render_stream_config := { sample_rate_hz := 48000, num_channels := 1 }
  , stream_delay_ms := none }

/-- A 48 kHz session whose active config has the echo canceller enabled and
whose stream-delay hint was set to 5 ms. -/
def session_aec_on_delay5 : AudioProcessing :=
  { config :=
      { echo_canceller := { enabled := true, mobile_mode := false, export_linear_aec_output := false }
      , other_submodules := 0 }
  , capture_stream_config := { sample_rate_hz := 48000, num_channels := 1 }
  , render_stream_config := { sample_rate_hz := 48000, num_channels := 1 }
  , stream_delay_ms := some 5 }

/-- A requested top-level configuration asking for linear AEC output export. -/
def config_request_linear_export : Config :=
  { echo_canceller := { enabled := true, mobile_mode := false, export_linear_aec_output := true }
  , other_submodules := 0 }

/-! ## Theorems -/

/-- C1 (counterexample): with an explicit configuration stored in the factory,
`Create` at render channel count 2 still supplies the engine's default
multichannel configuration to the engine — refuting, at this concrete input,
the claim that the multichannel default is never substituted when an explicit
configuration is present. -/
theorem factory_create_multichannel_default_cex :
    (factory_default.Create ec3_default 16000 2 1).multichannel_config ≠ none := by
  decide

/-- C1 (amended): `EchoCanceller3Factory::Create` always passes the stored
explicit configuration as the base config, but it suppresses the engine's
multichannel default only when both channel counts are at most 1; whenever the
render or capture channel count exceeds 1 it additionally supplies the
engine's default multichannel configuration alongside the explicit one. -/
theorem factory_create_explicit_config_and_multichannel_default
    (self : EchoCanceller3Factory) (engine_multichannel_default : EchoCanceller3Config)
    (sample_rate_hz num_render_channels num_capture_channels : Int) :
    (self.Create engine_multichannel_default sample_rate_hz
        num_render_channels num_capture_channels).config = self.config_
    ∧ ((self.Create engine_multichannel_default sample_rate_hz
          num_render_channels num_capture_channels).multichannel_config = none
        ↔ num_render_channels ≤ 1 ∧ num_capture_channels ≤ 1) := by
  refine ⟨rfl, ?_⟩
  show (if num_render_channels > 1 ∨ num_capture_channels > 1 then
          some engine_multichannel_default else none) = none
      ↔ num_render_channels ≤ 1 ∧ num_capture_channels ≤ 1
  split_ifs with h
  · constructor
    · intro hx
      simp at hx
    · intro hx
      exfalso
      omega
  · constructor
    · intro _
      omega
    · intro _
      rfl

/-- C1 (witness): at one render and one capture channel the explicit
configuration is passed and no multichannel default is supplied. -/
theorem factory_create_explicit_config_witness :
    (factory_default.Create ec3_default 16000 1 1).config = factory_default.config_
    ∧ (factory_default.Create ec3_default 16000 1 1).multichannel_config = none := by
  have h := factory_create_explicit_config_and_multichannel_default
    factory_default ec3_default 16000 1 1
  exact ⟨h.1, h.2.mpr (by decide)⟩

/-- C2 (counterexample): at capture sample rate 48000 with the export flag
requested true, the configuration `set_config` stores still has the export
flag true — the wrapper does not force it off. -/
theorem set_config_no_export_normalization_cex :
    session_48k.capture_stream_config.sample_rate_hz = 48000
    ∧ config_request_linear_export.echo_canceller.export_linear_aec_output = true
    ∧ (set_config session_48k
        config_request_linear_export).1.config.echo_canceller.export_linear_aec_output
        ≠ false := by
  refine ⟨rfl, rfl, ?_⟩
  decide

/-- C2 (amended): `set_config` stores the caller's configuration verbatim for
every session state, hence for every capture sample rate — the stored value,
including the linear-AEC-output export flag, equals the requested one, and the
identical unmodified value is forwarded to the engine's ApplyConfig; no
cascading normalization is performed by the wrapper. -/
theorem set_config_stores_verbatim (ap : AudioProcessing) (config : Config) :
    (set_config ap config).1.config = config
    ∧ (set_config ap config).2 = [EngineCall.apply_config config] :=
  ⟨rfl, rfl⟩

/-- C3: the holder's setConfig reports a change exactly when the candidate
differs byte-wise from the stored configuration, leaves the state untouched
when it reports no change, and is idempotent — re-applying the same candidate
to the resulting state reports no change and alters nothing, so the second of
two identical setAecConfig calls triggers no second reinitialization. -/
theorem holder_setConfig_idempotent (stored candidate : Option EchoCanceller3Config) :
    ((holder_setConfig stored candidate).2 = true ↔ candidate ≠ stored)
    ∧ ((holder_setConfig stored candidate).2 = false
        → (holder_setConfig stored candidate).1 = stored)
    ∧ holder_setConfig (holder_setConfig stored candidate).1 candidate
        = ((holder_setConfig stored candidate).1, false) := by
  unfold holder_setConfig
  by_cases h : candidate = stored <;> simp [h]

/-- C3 (witness): a concrete second application of the same candidate reports
no change and leaves the stored state untouched. -/
theorem holder_setConfig_idempotent_witness :
    holder_setConfig (holder_setConfig none (some ec3_default)).1 (some ec3_default)
      = ((holder_setConfig none (some ec3_default)).1, false) :=
  (holder_setConfig_idempotent none (some ec3_default)).2.2

/-- C4: `process_capture_frame` pushes exactly the stored stream-delay hint
(0 when never set) into the engine when the active configuration has the echo
canceller enabled, and pushes no delay at all when it is disabled — even when
`set_stream_delay_ms` stored a non-default hint beforehand. -/
theorem process_capture_frame_delay_gating
    (engine_process : StreamConfig → Int) (ap : AudioProcessing) (delay : Int) :
    pushed_delays (process_capture_frame engine_process ap).1
      = (if ap.config.echo_canceller.enabled then [ap.stream_delay_ms.getD 0] else [])
    ∧ pushed_delays (process_capture_frame engine_process (set_stream_delay_ms ap delay)).1
      = (if ap.config.echo_canceller.enabled then [delay] else []) := by
  constructor <;>
    by_cases h : ap.config.echo_canceller.enabled <;>
      simp [process_capture_frame, pushed_delays, set_stream_delay_ms, h]

/-- C4 (witness): with the echo canceller disabled, no stream-delay value is
pushed even though `set_stream_delay_ms` previously stored 7 ms. -/
theorem process_capture_frame_delay_gating_witness :
    pushed_delays (process_capture_frame (fun _ => 0) (set_stream_delay_ms session_48k 7)).1
      = [] := by
  have h := (process_capture_frame_delay_gating (fun _ => 0) session_48k 7).2
  simpa [session_48k, default_config] using h

/-- C5 (code bug): the translation helper does propagate absence faithfully
(first conjunct, at the cold-start block), but `get_stats` supplies only nine
initializer values — beginning with the voice-detected translation — for the
ten-field `Stats` struct whose first field is `output_rms_dbfs`.  Positional
aggregate initialization therefore places no statistic in its same-named
field, and the first position pairs an `OptionalBool` value with an
`OptionalInt` field. -/
theorem get_stats_fields_misaligned :
    (from_absl_optional_bool cold_start_stats.voice_detected).has_value = false
    ∧ stats_field_decls.length = 10
    ∧ (get_stats_args cold_start_stats).length = 9
    ∧ stats_field_decls.take 1 = [("output_rms_dbfs", OptKind.int)]
    ∧ (get_stats_args cold_start_stats).take 1
        = [("voice_detected", OptValue.bool { has_value := false, value := false })]
    ∧ ((stats_field_decls.zip (get_stats_args cold_start_stats)).all
        (fun p => p.1.1 == p.2.1)) = false
    ∧ ((stats_field_decls.zip (get_stats_args cold_start_stats)).all
        (fun p => p.1.2 == p.2.2.kind)) = false := by
  decide

/-- C6: `build_aec3_config` is atomic — its result is either the merge that
overwrites every override-covered field or the engine baseline default, never
anything in between, and when the merged configuration fails validation the
whole override is rejected and the baseline default is returned. -/
theorem build_aec3_config_atomic (engine_default : EchoCanceller3Config)
    (validate : EchoCanceller3Config → Bool)
    (override : EchoCanceller3ConfigOverride) :
    (build_aec3_config engine_default validate override
        = aec3_config_from_override engine_default override
      ∨ build_aec3_config engine_default validate override = engine_default)
    ∧ (validate (aec3_config_from_override engine_default override) = false
        → build_aec3_config engine_default validate override = engine_default) := by
  unfold build_aec3_config
  by_cases h : validate (aec3_config_from_override engine_default override) <;> simp [h]

/-- C6 (witness): a rejecting validator makes the build return the baseline
default for a concrete override. -/
theorem build_aec3_config_atomic_witness :
    build_aec3_config ec3_default reject_all override_default = ec3_default :=
  (build_aec3_config_atomic ec3_default reject_all override_default).2 rfl

/-- C7 (counterexample): with a validator that rejects the override-derived
configuration and an engine that accepts initialization, create still returns
a session and leaves the error out-parameter untouched — no BadParameter (or
any other) failure is reported for the invalid override. -/
theorem create_invalid_override_no_error_cex :
    (audio_processing_create (fun _ => 0) ec3_default reject_all 1 1 48000
        (some override_default)).session.isSome = true
    ∧ (audio_processing_create (fun _ => 0) ec3_default reject_all 1 1 48000
        (some override_default)).error_out = none := by
  constructor <;> rfl

/-- C7 (amended): an override-derived configuration that fails validation is
not reported to the caller — the factory registered with the engine silently
holds the engine baseline default in place of the whole override, and when
the engine accepts initialization a session is still constructed with the
error out-parameter left untouched. -/
theorem create_invalid_override_silent_fallback
    (engine_init : ProcessingConfig → Int) (engine_default : EchoCanceller3Config)
    (validate : EchoCanceller3Config → Bool)
    (num_capture_channels num_render_channels sample_rate_hz : Int)
    (override : EchoCanceller3ConfigOverride)
    (hval : validate (aec3_config_from_override engine_default override) = false)
    (hinit : engine_init (build_processing_config
        num_capture_channels num_render_channels sample_rate_hz) = 0) :
    (audio_processing_create engine_init engine_default validate
        num_capture_channels num_render_channels sample_rate_hz (some override)).factory
      = some (EchoCanceller3Factory.mk engine_default)
    ∧ (audio_processing_create engine_init engine_default validate
        num_capture_channels num_render_channels sample_rate_hz (some override)).session
      ≠ none
    ∧ (audio_processing_create engine_init engine_default validate
        num_capture_channels num_render_channels sample_rate_hz (some override)).error_out
      = none := by
  unfold audio_processing_create build_aec3_config
  simp [hval, hinit]

/-- C7 (witness): concrete silent fallback with a rejecting validator and an
accepting engine. -/
theorem create_invalid_override_silent_fallback_witness :
    (audio_processing_create (fun _ => 0) ec3_default reject_all 1 1 48000
        (some override_default)).factory = some (EchoCanceller3Factory.mk ec3_default)
    ∧ (audio_processing_create (fun _ => 0) ec3_default reject_all 1 1 48000
        (some override_default)).session ≠ none
    ∧ (audio_processing_create (fun _ => 0) ec3_default reject_all 1 1 48000
        (some override_default)).error_out = none :=
  create_invalid_override_silent_fallback (fun _ => 0) ec3_default reject_all
    1 1 48000 override_default rfl rfl

/-- C8: when the engine rejects the initial processing configuration, create
returns no session, writes the engine's code — which is non-zero — through
the error out-parameter, and nothing of the partially built session escapes. -/
theorem create_engine_reject_returns_null
    (engine_init : ProcessingConfig → Int) (engine_default : EchoCanceller3Config)
    (validate : EchoCanceller3Config → Bool)
    (num_capture_channels num_render_channels sample_rate_hz : Int)
    (override : Option EchoCanceller3ConfigOverride)
    (hinit : engine_init (build_processing_config
        num_capture_channels num_render_channels sample_rate_hz) ≠ 0) :
    (audio_processing_create engine_init engine_default validate
        num_capture_channels num_render_channels sample_rate_hz override).session = none
    ∧ (audio_processing_create engine_init engine_default validate
        num_capture_channels num_render_channels sample_rate_hz override).error_out
      = some (engine_init (build_processing_config
          num_capture_channels num_render_channels sample_rate_hz))
    ∧ engine_init (build_processing_config
        num_capture_channels num_render_channels sample_rate_hz) ≠ 0 := by
  unfold audio_processing_create
  simp [hinit]

/-- C8 (witness): a concrete engine rejection code (-3) yields a null session
and the code written through the error out-parameter. -/
theorem create_engine_reject_returns_null_witness :
    (audio_processing_create (fun _ => -3) ec3_default accept_all 2 2 32000 none).session
      = none
    ∧ (audio_processing_create (fun _ => -3) ec3_default accept_all 2 2 32000 none).error_out
      = some (-3)
    ∧ ((-3 : Int) ≠ 0) := by
  have h := create_engine_reject_returns_null (fun _ => -3) ec3_default accept_all
    2 2 32000 none (by decide)
  exact ⟨h.1, h.2.1, h.2.2⟩

/-- C9 (code bug): none of the three operations acquires any lock — each
source trace reads or writes the shared stream-delay hint or the active
top-level config at lock depth zero, so capture-side readers and config-side
writers do not serialize on a session-scoped lock. -/
theorem shared_state_access_unlocked :
    lock_serialized (set_stream_delay_ms_trace 5) = false
    ∧ lock_serialized set_config_trace = false
    ∧ lock_serialized (process_capture_frame_trace session_aec_on_delay5) = false := by
  decide

/-- C10: a session successfully created with sample rate `sample_rate_hz`
reports exactly `sample_rate_hz * 10 / 1000` samples per fixed 10 ms frame,
in exact integer arithmetic. -/
theorem get_num_samples_per_frame_create
    (engine_init : ProcessingConfig → Int) (engine_default : EchoCanceller3Config)
    (validate : EchoCanceller3Config → Bool)
    (num_capture_channels num_render_channels sample_rate_hz : Int)
    (override : Option EchoCanceller3ConfigOverride) (s : AudioProcessing)
    (h : (audio_processing_create engine_init engine_default validate
        num_capture_channels num_render_channels sample_rate_hz override).session = some s) :
    get_num_samples_per_frame s = sample_rate_hz * 10 / 1000 := by
  unfold audio_processing_create at h
  by_cases hc : engine_init (build_processing_config
      num_capture_channels num_render_channels sample_rate_hz) ≠ 0
  · simp [hc] at h
  · simp [hc] at h
    subst h
    rfl

/-- C10 (witness): a 48 kHz session reports 480 samples per frame. -/
theorem get_num_samples_per_frame_create_witness :
    get_num_samples_per_frame session_48k = 480 := by
  have h := get_num_samples_per_frame_create (fun _ => 0) ec3_default accept_all
    1 1 48000 none session_48k rfl
  rw [h]
  decide

end webrtc_audio_processing_wrapper
